import Mathlib

/-!
Shallow embedding of the shapefile-viewer application (src/app.py).

The application is glue over external geospatial libraries (geopandas,
shapely, folium, branca).  Library calls are modelled as components of a
`Libs` record: each fallible call (`zipfile.ZipFile(...).extractall`,
`shutil.copy`, `gpd.read_file`) is a function into `Except Exn`, and each
geometry-level observable (validity, `explain_validity`, centroid, bounds,
geometry type) is a field of the embedded `Geometry` value.  The control
flow, branching, message construction and session-state updates are
translated directly from `src/app.py`.
-/

deriving instance DecidableEq for Except

namespace ShpViewer

/-- A Python exception as observed by an `except Exception as e` handler:
`desc` models `str(e)`.  The corresponding traceback text is produced by
`Libs.format_exc` (modelling `traceback.format_exc()`). -/
structure Exn where
  desc : String
deriving DecidableEq, Repr

/-- An attribute value held in one cell of the geometry table. -/
inductive Value
  | intV (i : Int)
  | floatV (q : ℚ)
  | strV (s : String)
deriving DecidableEq, Repr

/-- The pandas dtype of an attribute column, restricted to the dtypes
geopandas produces when reading a shapefile DBF. -/
inductive Dtype
  | int64
  | float64
  | object
  | boolDt
deriving DecidableEq, Repr

/-- A geometry, represented by the observables the application reads off it
through shapely/geopandas: topological validity (`is_valid`), the
`explain_validity` text, the centroid (x, y), the bounds
(minx, miny, maxx, maxy) and the geometry-type name. -/
structure Geometry where
  valid : Bool
  explanation : String
  centroid : ℚ × ℚ
  bounds : ℚ × ℚ × ℚ × ℚ
  geomType : String
deriving DecidableEq, Repr

/-- One row of the geometry table: a geometry plus named attribute values. -/
structure GeoRow where
  geometry : Geometry
  attrs : List (String × Value)
deriving DecidableEq, Repr

/-- The geometry table (`GeoDataFrame`): attribute columns with their
dtypes, rows, and a coordinate reference system identifier. -/
structure GeoDataFrame where
  columns : List (String × Dtype)
  rows : List GeoRow
  crs : String
deriving DecidableEq, Repr

/-- One uploaded file as delivered by the upload mechanism:
`input.shapefile()` yields dicts with keys `name` and `datapath`. -/
structure FileInfo where
  name : String
  datapath : String
deriving DecidableEq, Repr

/-- An RGB color with rational components. -/
abbrev Color := ℚ × ℚ × ℚ

/-- The style and tooltip the renderer attaches to one feature
(app.py lines 96-105). -/
structure Feature where
  geometry : Geometry
  fillColor : Color
  lineColor : String
  weight : ℚ
  fillOpacity : ℚ
  tooltipField : String
  tooltipValue : Value
deriving DecidableEq, Repr

/-- The finished folium map before HTML serialization: center location,
zoom, tile layer, styled features, legend caption and range, bounds
fitting and the layer control (app.py lines 87-115). -/
structure MapSpec where
  location : ℚ × ℚ
  zoomStart : Nat
  tiles : String
  features : List Feature
  legendCaption : String
  legendVmin : ℚ
  legendVmax : ℚ
  fitToBounds : Bool
  layerControl : Bool
deriving DecidableEq, Repr

/-- The external library surface the application calls into.  `extractZip`
models `zipfile.ZipFile(path).extractall(tmpdir)` returning the names now
present in the scratch directory; `copyFile` models `shutil.copy`;
`read_file` models `gpd.read_file`; `buffer0` models the shapely
zero-distance buffer `geometry.buffer(0)`; `format_exc` models
`traceback.format_exc()` for a caught exception; `repr_html` models
folium's `Map._repr_html_()`. -/
structure Libs where
  tmpdirname : String
  extractZip : String → Except Exn (List String)
  copyFile : String → String → Except Exn Unit
  read_file : String → Except Exn GeoDataFrame
  buffer0 : Geometry → Geometry
  format_exc : Exn → String
  repr_html : MapSpec → String

/-- Tests whether the first list is an initial segment of the second. -/
def listStartsWith : List Char → List Char → Bool
  | [], _ => true
  | _ :: _, [] => false
  | a :: as, b :: bs => a == b && listStartsWith as bs

/-- Models Python `str.endswith`: the suffix test on strings. -/
def strEndsWith (s suf : String) : Bool :=
  listStartsWith suf.data.reverse s.data.reverse

/-- Models `os.path.join`. -/
def pjoin (d f : String) : String := d ++ "/" ++ f

/-- The condition of app.py line 37:
`len(files) == 1 and files[0]["name"].endswith(".zip")`. -/
def singleZip (files : List FileInfo) : Option FileInfo :=
  match files with
  | [f] => if strEndsWith f.name ".zip" then some f else none
  | _ => none

/-- The loop of app.py lines 41-42: copy every uploaded file into the
scratch directory under its original name; the resulting listing of the
scratch directory is the list of copied names. -/
def copyAll (E : Libs) (files : List FileInfo) : Except Exn (List String) :=
  match files with
  | [] => .ok []
  | f :: rest =>
    match E.copyFile f.datapath (pjoin E.tmpdirname f.name) with
    | .error e => .error e
    | .ok _ =>
      match copyAll E rest with
      | .error e => .error e
      | .ok names => .ok (f.name :: names)

/-- App.py lines 37-42: materialize the upload set into the scratch
directory and return that directory's listing. -/
def assembleDir (E : Libs) (files : List FileInfo) : Except Exn (List String) :=
  match singleZip files with
  | some f => E.extractZip f.datapath
  | none => copyAll E files

/-- App.py line 50: `gdf["geometry"] = gdf["geometry"].buffer(0)` on one row. -/
def repairRow (E : Libs) (r : GeoRow) : GeoRow :=
  { r with geometry := E.buffer0 r.geometry }

/-- App.py line 50 applied to every row of the table. -/
def repairTable (E : Libs) (g : GeoDataFrame) : GeoDataFrame :=
  { g with rows := g.rows.map (repairRow E) }

/-- App.py line 53: `invalid_geoms = gdf[~gdf.is_valid]`, keeping the
pandas row index (modelled by the position in the row list). -/
def invalid_geoms (g : GeoDataFrame) : List (Nat × GeoRow) :=
  g.rows.enum.filter (fun p => !p.2.geometry.valid)

/-- App.py line 55: the `explain_validity` series over the invalid rows,
as an index-keyed association (`invalid_info.to_dict()`). -/
def invalidEntries (g : GeoDataFrame) : List (Nat × String) :=
  (invalid_geoms g).map (fun p => (p.1, p.2.geometry.explanation))

/-- One `index: explanation` item of the dict rendering (Python string
quoting elided). -/
def renderEntry (p : Nat × String) : String :=
  toString p.1 ++ ": " ++ p.2

/-- The Python `dict` rendering of the invalid-geometry explanations. -/
def renderDict (l : List (Nat × String)) : String :=
  "\x7b" ++ String.intercalate ", " (l.map renderEntry) ++ "\x7d"

/-- App.py line 56: the message returned when invalid geometries remain. -/
def mkInvalidMessage (g : GeoDataFrame) : String :=
  "Shapefile loaded with " ++ toString (invalid_geoms g).length ++
    " invalid geometries: " ++ renderDict (invalidEntries g)

/-- The value of one evaluation of `load_shapefile`: the returned pair
`(gdf, message)` plus `storeSet`, which records the argument of the
`gdf_store.set` call when that call was executed (app.py line 58). -/
structure LoadResult where
  table : Option GeoDataFrame
  message : String
  storeSet : Option GeoDataFrame
deriving DecidableEq, Repr

/-- The body of the `try` block of app.py lines 36-61: assemble the
scratch directory, locate the first `.shp` file, parse it, repair the
geometries, and report validity. -/
def load_body (E : Libs) (files : List FileInfo) : Except Exn LoadResult :=
  match assembleDir E files with
  | .error e => .error e
  | .ok listing =>
    match listing.find? (fun f => strEndsWith f ".shp") with
    | none => .ok ⟨none, "No .shp file found in the uploaded files", none⟩
    | some f =>
      let shp := pjoin E.tmpdirname f
      match E.read_file shp with
      | .error e => .error e
      | .ok gdf0 =>
        let gdf := repairTable E gdf0
        if (invalid_geoms gdf).isEmpty then
          .ok ⟨some gdf,
               "Shapefile loaded successfully and all geometries are valid: " ++ shp,
               some gdf⟩
        else
          .ok ⟨some gdf, mkInvalidMessage gdf, none⟩

/-- App.py line 64: the message of the `except` branch. -/
def errorLoadingMessage (E : Libs) (e : Exn) : String :=
  "Error loading shapefile: " ++ e.desc ++ "\n" ++ E.format_exc e

/-- App.py lines 30-64: the `load_shapefile` reactive calc.  The early
return for an empty upload set, then the `try` body with every exception
caught and converted into an error message. -/
def load_shapefile (E : Libs) (files : List FileInfo) : LoadResult :=
  if files.isEmpty then ⟨none, "No files uploaded", none⟩
  else
    match load_body E files with
    | .ok r => r
    | .error e => ⟨none, errorLoadingMessage E e, none⟩

/-- The session state: the reactive value `gdf_store` (app.py line 27). -/
structure Session where
  gdf_store : Option GeoDataFrame
deriving DecidableEq, Repr

/-- The initial session: `reactive.Value(None)`. -/
def Session.start : Session := ⟨none⟩

/-- One upload event: evaluate `load_shapefile`; the store is overwritten
exactly when `gdf_store.set` ran during that evaluation. -/
def stepUpload (E : Libs) (files : List FileInfo) (s : Session) :
    Session × LoadResult :=
  let r := load_shapefile E files
  (⟨match r.storeSet with
    | some g => some g
    | none => s.gdf_store⟩, r)

/-- A rendered UI fragment. -/
inductive UI
  | selectInput (id label : String) (choices : List String)
  | paragraph (text : String)
  | htmlOut (markup : String)
deriving DecidableEq, Repr

/-- The choices offered by a UI fragment (a non-select fragment offers
none). -/
def selectorChoices : UI → List String
  | .selectInput _ _ cs => cs
  | _ => []

/-- App.py line 71: `gdf.select_dtypes(include=["int64", "float64"])`
column names. -/
def numeric_columns (g : GeoDataFrame) : List String :=
  (g.columns.filter (fun c => c.2 == Dtype.int64 || c.2 == Dtype.float64)).map
    (fun c => c.1)

/-- Modelled from the spec: a column counts as numeric when its values are
integer or floating-point typed. -/
def isNumericDtype : Dtype → Bool
  | .int64 => true
  | .float64 => true
  | _ => false

/-- Modelled from the spec: the numeric columns of the current table
("columns whose values are integer or floating-point typed"), to be
compared with the code-derived `numeric_columns`. -/
def spec_numeric_columns (g : GeoDataFrame) : List String :=
  (g.columns.filter (fun c => isNumericDtype c.2)).map (fun c => c.1)

/-- App.py lines 68-73: the attribute selector, fed from the
`load_shapefile` result. -/
def attribute_selector (r : LoadResult) : UI :=
  match r.table with
  | some g =>
      .selectInput "legend_attribute" "Select attribute for legend"
        (numeric_columns g)
  | none => .paragraph "Upload a shapefile to select an attribute for the legend."

/-- Stops of the 3-stop color scale. -/
def yellow : Color := (1, 1, 0)

/-- Stops of the 3-stop color scale. -/
def orange : Color := (1, 647 / 1000, 0)

/-- Stops of the 3-stop color scale. -/
def red : Color := (1, 0, 0)

/-- Modelled from the spec: the 3-stop linear color scale
(yellow → orange → red) spanning the selected attribute's minimum to
maximum value, provided by the external colormap library (branca), which
is not part of this repository. -/
structure ColorScale where
  c0 : Color
  c1 : Color
  c2 : Color
  vmin : ℚ
  vmax : ℚ
deriving DecidableEq, Repr

/-- Linear interpolation between two colors. -/
def lerp (a b : Color) (t : ℚ) : Color :=
  (a.1 + (b.1 - a.1) * t, a.2.1 + (b.2.1 - a.2.1) * t, a.2.2 + (b.2.2 - a.2.2) * t)

/-- Modelled from the spec: evaluating the linear color scale at a value.
Values at or below the lower stop take the first color, values at or above
the upper stop take the last color, and interior values interpolate
linearly between the neighboring stops; an interior evaluation over a
zero-width segment is a division-by-zero fault. -/
def ColorScale.colorAt (cm : ColorScale) (x : ℚ) : Except Exn Color :=
  let mid := cm.vmin + (cm.vmax - cm.vmin) / 2
  if x ≤ cm.vmin then .ok cm.c0
  else if cm.vmax ≤ x then .ok cm.c2
  else if x ≤ mid then
    if mid - cm.vmin = 0 then .error ⟨"float division by zero"⟩
    else .ok (lerp cm.c0 cm.c1 ((x - cm.vmin) / (mid - cm.vmin)))
  else
    if cm.vmax - mid = 0 then .error ⟨"float division by zero"⟩
    else .ok (lerp cm.c1 cm.c2 ((x - mid) / (cm.vmax - mid)))

/-- Reading the selected attribute off one feature
(`feature["properties"][legend_attr]`): a missing key is a `KeyError`. -/
def getValue (r : GeoRow) (attr : String) : Except Exn Value :=
  match r.attrs.lookup attr with
  | some v => .ok v
  | none => .error ⟨"KeyError: " ++ attr⟩

/-- Coercing a cell value to a number for the color scale; styling a
non-numeric value is a `TypeError`. -/
def toNumber (v : Value) : Except Exn ℚ :=
  match v with
  | .intV i => .ok (i : ℚ)
  | .floatV q => .ok q
  | .strV s => .error ⟨"TypeError: unsupported value " ++ s⟩

/-- The numeric value of the selected attribute in one row. -/
def rowValue (attr : String) (r : GeoRow) : Except Exn ℚ :=
  match getValue r attr with
  | .error e => .error e
  | .ok v => toNumber v

/-- App.py lines 91-92: `gdf[legend_attr]` as a numeric series; a column
absent from the table is a `KeyError`. -/
def getColumn (g : GeoDataFrame) (attr : String) : Except Exn (List ℚ) :=
  if (g.columns.map (fun c => c.1)).contains attr then
    g.rows.mapM (rowValue attr)
  else .error ⟨"KeyError: " ++ attr⟩

/-- The pandas `.min()` of a series (0 on an empty series, where pandas
would give NaN; no claim touches that case). -/
def listMin : List ℚ → ℚ
  | [] => 0
  | x :: xs => xs.foldl min x

/-- The pandas `.max()` of a series. -/
def listMax : List ℚ → ℚ
  | [] => 0
  | x :: xs => xs.foldl max x

/-- App.py line 85: `gdf.geometry.centroid.y.mean()`. -/
def centerLat (g : GeoDataFrame) : ℚ :=
  (g.rows.map (fun r => r.geometry.centroid.2)).sum / g.rows.length

/-- App.py line 86: `gdf.geometry.centroid.x.mean()`. -/
def centerLon (g : GeoDataFrame) : ℚ :=
  (g.rows.map (fun r => r.geometry.centroid.1)).sum / g.rows.length

/-- App.py lines 96-105: style one feature with the color scale evaluated
at its attribute value, a black outline of weight 1, fill opacity 0.7 and
a tooltip naming the attribute and its value. -/
def styleFeature (cm : ColorScale) (attr : String) (r : GeoRow) :
    Except Exn Feature :=
  match getValue r attr with
  | .error e => .error e
  | .ok v =>
    match toNumber v with
    | .error e => .error e
    | .ok q =>
      match cm.colorAt q with
      | .error e => .error e
      | .ok c => .ok ⟨r.geometry, c, "black", 1, 7 / 10, attr, v⟩

/-- App.py lines 81-120: the body of the render `try` block: read the
selected attribute, build the map, the color scale and the styled
features, attach legend, bounds fitting and layer control, and serialize
to HTML. -/
def render_body (E : Libs) (gdf : GeoDataFrame) (legend_attr : String) :
    Except Exn String :=
  let center := (centerLat gdf, centerLon gdf)
  match getColumn gdf legend_attr with
  | .error e => .error e
  | .ok vals =>
    let cm : ColorScale := ⟨yellow, orange, red, listMin vals, listMax vals⟩
    match gdf.rows.mapM (styleFeature cm legend_attr) with
    | .error e => .error e
    | .ok features =>
      .ok (E.repr_html
        ⟨center, 10, "OpenStreetMap", features, legend_attr,
         cm.vmin, cm.vmax, true, true⟩)

/-- App.py line 122: the message of the render `except` branch. -/
def errorCreatingMessage (E : Libs) (e : Exn) : String :=
  "Error creating map: " ++ e.desc ++ "\n" ++ E.format_exc e

/-- App.py lines 77-123: the `map_output` renderer.  It reads `gdf_store`
(not the `load_shapefile` result), catches every exception of the render
sequence, and leaves the session state untouched; the session is threaded
explicitly to state that. -/
def map_output (E : Libs) (s : Session) (legend_attr : String) :
    Session × UI :=
  match s.gdf_store with
  | some gdf =>
    match render_body E gdf legend_attr with
    | .ok html => (s, .htmlOut html)
    | .error e => (s, .paragraph (errorCreatingMessage E e))
  | none =>
    (s, .paragraph
      "Upload a zipped shapefile or individual shapefile components to view the map.")

/-- App.py lines 127-131: the feature-count readout, fed from the
`load_shapefile` result. -/
def file_info (r : LoadResult) : String :=
  match r.table with
  | some g => "Shapefile loaded: " ++ toString g.rows.length ++ " features"
  | none =>
      "No valid shapefile uploaded yet. Please upload a .zip file or all necessary shapefile components (.shp, .shx, .dbf, etc.)."

/-- App.py lines 135-137: the load-message readout. -/
def debug_info (r : LoadResult) : String := r.message

/-- App.py line 144: `gdf.total_bounds`. -/
def total_bounds (g : GeoDataFrame) : ℚ × ℚ × ℚ × ℚ :=
  let bs := g.rows.map (fun r => r.geometry.bounds)
  (listMin (bs.map (fun b => b.1)), listMin (bs.map (fun b => b.2.1)),
   listMax (bs.map (fun b => b.2.2.1)), listMax (bs.map (fun b => b.2.2.2)))

/-- App.py line 145: `gdf.geom_type.value_counts().to_dict()`. -/
def geomTypeCounts (g : GeoDataFrame) : List (String × Nat) :=
  let ts := g.rows.map (fun r => r.geometry.geomType)
  ts.dedup.map (fun t => (t, ts.count t))

/-- The geometry-diagnostics text for a present table (app.py lines
143-145). -/
def geomInfoString (g : GeoDataFrame) : String :=
  "Geometry bounds: " ++ toString (total_bounds g) ++
    "\nCRS: " ++ g.crs ++
    "\nGeometry types: " ++ toString (geomTypeCounts g)

/-- App.py lines 141-146: the geometry-diagnostics readout, fed from the
`load_shapefile` result. -/
def geometry_info (r : LoadResult) : String :=
  match r.table with
  | some g => geomInfoString g
  | none => "No geometry information available."

/-- A topologically valid polygon geometry. -/
def exGeomValid : Geometry :=
  { valid := true, explanation := "Valid Geometry", centroid := (0, 0),
    bounds := (0, 0, 1, 1), geomType := "Polygon" }

/-- A second valid polygon geometry, distinct from `exGeomValid`. -/
def exGeomValid2 : Geometry :=
  { valid := true, explanation := "Valid Geometry", centroid := (2, 2),
    bounds := (1, 1, 3, 3), geomType := "Polygon" }

/-- A geometry that stays invalid after the zero-buffer repair. -/
def exGeomInvalid : Geometry :=
  { valid := false, explanation := "Self-intersection at or near point 1 1",
    centroid := (0, 0), bounds := (0, 0, 1, 1), geomType := "Polygon" }

/-- A valid row with numeric attribute `x = 1`. -/
def exRowA : GeoRow := ⟨exGeomValid, [("x", .floatV 1)]⟩

/-- An invalid row with numeric attribute `x = 2`. -/
def exRowB : GeoRow := ⟨exGeomInvalid, [("x", .floatV 2)]⟩

/-- A valid row with numeric attribute `x = 5`. -/
def exRowC : GeoRow := ⟨exGeomValid2, [("x", .floatV 5)]⟩

/-- A fully valid one-row table. -/
def gA : GeoDataFrame := ⟨[("x", .float64)], [exRowA], "EPSG:4326"⟩

/-- A one-row table whose row is still invalid after repair. -/
def gB : GeoDataFrame := ⟨[("x", .float64)], [exRowB], "EPSG:4326"⟩

/-- A second fully valid table, distinct from `gA`. -/
def gC : GeoDataFrame := ⟨[("x", .float64)], [exRowC], "EPSG:4326"⟩

/-- An upload consisting of one loose `.shp` file. -/
def exFilesA : List FileInfo := [⟨"a.shp", "/uploads/a.shp"⟩]

/-- A second upload consisting of one loose `.shp` file. -/
def exFilesB : List FileInfo := [⟨"b.shp", "/uploads/b.shp"⟩]

/-- A library environment whose parse yields the fully valid table `gA`. -/
def exLibsA : Libs :=
  { tmpdirname := "/scratch"
    extractZip := fun _ => .ok []
    copyFile := fun _ _ => .ok ()
    read_file := fun _ => .ok gA
    buffer0 := id
    format_exc := fun e => "Traceback (most recent call last): " ++ e.desc
    repr_html := fun _ => "<div>map</div>" }

/-- A library environment whose parse yields `gB`, which keeps an invalid
geometry after repair. -/
def exLibsB : Libs := { exLibsA with read_file := fun _ => .ok gB }

/-- A library environment whose parse yields the fully valid table `gC`. -/
def exLibsC : Libs := { exLibsA with read_file := fun _ => .ok gC }

/-- A library environment whose parse raises. -/
def exLibsErr : Libs :=
  { exLibsA with read_file := fun _ => .error ⟨"Failed to parse file"⟩ }

/-- A library environment whose zip extraction yields no `.shp` member. -/
def exLibsNoShp : Libs :=
  { exLibsA with extractZip := fun _ => .ok ["a.dbf", "a.prj"] }

/-- A library environment whose zip extraction yields shapefile members. -/
def exLibsZip : Libs :=
  { exLibsA with extractZip := fun _ => .ok ["in.shp", "in.dbf"] }

lemma except_bind_ok {α β : Type} (b : α) (k : α → Except Exn β) :
    (Except.ok b >>= k) = k b := rfl

lemma except_bind_error {α β : Type} (e : Exn) (k : α → Except Exn β) :
    ((Except.error e : Except Exn α) >>= k) = .error e := rfl

lemma except_pure {α : Type} (a : α) : (pure a : Except Exn α) = .ok a := rfl

lemma invalid_enumFrom_length (n : Nat) (l : List GeoRow) :
    ((l.enumFrom n).filter (fun q => !q.2.geometry.valid)).length =
      (l.filter (fun r => !r.geometry.valid)).length := by
  induction l generalizing n with
  | nil => rfl
  | cons a t ih =>
    show (((n, a) :: t.enumFrom (n + 1)).filter _).length = _
    rw [List.filter_cons, List.filter_cons]
    cases h : (!a.geometry.valid) <;> simp [h, ih (n + 1)]

lemma invalid_geoms_length (g : GeoDataFrame) :
    (invalid_geoms g).length = (g.rows.filter (fun r => !r.geometry.valid)).length :=
  invalid_enumFrom_length 0 g.rows

lemma invalid_geoms_isEmpty_iff (g : GeoDataFrame) :
    (invalid_geoms g).isEmpty = true ↔ ∀ r ∈ g.rows, r.geometry.valid = true := by
  rw [List.isEmpty_iff_length_eq_zero, invalid_geoms_length,
    List.length_eq_zero, List.filter_eq_nil_iff]
  constructor
  · intro h r hr
    have := h r hr
    simpa using this
  · intro h r hr
    simp [h r hr]

/-- Inversion on a non-raising evaluation of the `try` body: either no
`.shp` was found, or the table was stored (all geometries valid after
repair), or the table was returned without storing it (some geometry
still invalid). -/
lemma load_body_ok_cases (E : Libs) (files : List FileInfo) (r : LoadResult)
    (h : load_body E files = .ok r) :
    (r.table = none ∧ r.storeSet = none) ∨
    (∃ g, r.table = some g ∧ r.storeSet = some g ∧
      ∀ row ∈ g.rows, row.geometry.valid = true) ∨
    (∃ g, r.table = some g ∧ r.storeSet = none ∧
      ¬ ∀ row ∈ g.rows, row.geometry.valid = true) := by
  unfold load_body at h
  split at h
  · exact Except.noConfusion h
  · split at h
    · injection h with h
      subst h
      exact Or.inl ⟨rfl, rfl⟩
    · dsimp only at h
      split at h
      · exact Except.noConfusion h
      · split at h
        · injection h with h
          subst h
          rename_i gdf0 _ hv
          exact Or.inr (Or.inl ⟨repairTable E gdf0, rfl, rfl,
            (invalid_geoms_isEmpty_iff _).mp hv⟩)
        · injection h with h
          subst h
          rename_i gdf0 _ hv
          refine Or.inr (Or.inr ⟨repairTable E gdf0, rfl, rfl, ?_⟩)
          intro hall
          exact hv ((invalid_geoms_isEmpty_iff _).mpr hall)

/-- C2: the stored table `gdf_store` is overwritten exactly when a load
returns a table all of whose geometries are valid after the zero-buffer
repair; on a load whose table still has an invalid geometry, and on a
failed load, the store keeps its previous value.  Consequently the map
renderer (reading `gdf_store`) and the text readouts (reading the load
result) can be looking at different tables, witnessed by the second
conjunct. -/
theorem c2_store_updated_only_on_fully_valid_load :
    (∀ (E : Libs) (files : List FileInfo) (s : Session),
       (stepUpload E files s).1.gdf_store =
         match (load_shapefile E files).table with
         | some g =>
             if g.rows.all (fun row => row.geometry.valid) then some g
             else s.gdf_store
         | none => s.gdf_store) ∧
    (∃ (E : Libs) (files : List FileInfo) (s : Session),
       (load_shapefile E files).table ≠ none ∧
       (stepUpload E files s).1.gdf_store ≠ (load_shapefile E files).table) := by
  constructor
  · intro E files s
    unfold stepUpload load_shapefile
    cases hemp : files.isEmpty with
    | true => simp
    | false =>
      simp only [Bool.false_eq_true, if_false]
      cases hlb : load_body E files with
      | error e => simp
      | ok r =>
        rcases load_body_ok_cases E files r hlb with
          ⟨ht, hs⟩ | ⟨g, ht, hs, hvalid⟩ | ⟨g, ht, hs, hinvalid⟩
        · simp [ht, hs]
        · have hall : g.rows.all (fun row => row.geometry.valid) = true :=
            List.all_eq_true.mpr hvalid
          simp [ht, hs, hall]
        · have hall : g.rows.all (fun row => row.geometry.valid) = false := by
            cases hb : g.rows.all (fun row => row.geometry.valid) with
            | false => rfl
            | true => exact absurd (List.all_eq_true.mp hb) hinvalid
          simp [ht, hs, hall]
  · exact ⟨exLibsB, exFilesB, Session.start, by decide, by decide⟩

/-- A load that returned a table all of whose geometries are valid also
stored that table. -/
lemma storeSet_of_table_all_valid (E : Libs) (files : List FileInfo)
    (g : GeoDataFrame)
    (ht : (load_shapefile E files).table = some g)
    (hv : ∀ row ∈ g.rows, row.geometry.valid = true) :
    (load_shapefile E files).storeSet = some g := by
  cases files with
  | nil => simp [load_shapefile] at ht
  | cons f0 fs =>
    unfold load_shapefile at ht ⊢
    simp only [List.isEmpty_cons, Bool.false_eq_true, if_false] at ht ⊢
    cases hlb : load_body E (f0 :: fs) with
    | error e => rw [hlb] at ht; simp at ht
    | ok r =>
      rw [hlb] at ht
      dsimp only at ht ⊢
      rcases load_body_ok_cases E (f0 :: fs) r hlb with
        ⟨ht2, hs2⟩ | ⟨g2, ht2, hs2, _⟩ | ⟨g2, ht2, hs2, hinv⟩
      · rw [ht2] at ht; exact Option.noConfusion ht
      · rw [ht2] at ht
        injection ht with ht
        subst ht
        exact hs2
      · rw [ht2] at ht
        injection ht with ht
        subst ht
        exact absurd hv hinv

/-- C1 (amended): after a new upload whose load returns a table with every
geometry valid after repair, following a prior fully successful load,
every derived output reflects only the new table: the store feeding the
map renderer holds the new table, and the feature count and geometry
diagnostics are computed from the new table.  (As stated in the spec the
claim fails when the new table keeps an invalid geometry; see the
counterexample.) -/
theorem c1_outputs_replaced_when_new_load_fully_valid
    (E E2 : Libs) (files files2 : List FileInfo) (s : Session)
    (g g2 : GeoDataFrame)
    (_h1 : (load_shapefile E files).storeSet = some g)
    (h2 : (load_shapefile E2 files2).table = some g2)
    (h3 : ∀ row ∈ g2.rows, row.geometry.valid = true) :
    (stepUpload E2 files2 (stepUpload E files s).1).1.gdf_store = some g2 ∧
    file_info (load_shapefile E2 files2) =
      "Shapefile loaded: " ++ toString g2.rows.length ++ " features" ∧
    geometry_info (load_shapefile E2 files2) = geomInfoString g2 := by
  refine ⟨?_, ?_, ?_⟩
  · have hset := storeSet_of_table_all_valid E2 files2 g2 h2 h3
    unfold stepUpload
    dsimp only
    rw [hset]
  · unfold file_info
    rw [h2]
  · unfold geometry_info
    rw [h2]

/-- Witness for the amended C1: a fully valid load of `gA` followed by a
fully valid load of `gC` leaves every output computed from `gC`. -/
theorem c1_witness :
    (load_shapefile exLibsA exFilesA).storeSet = some gA ∧
    (load_shapefile exLibsC exFilesB).table = some gC ∧
    (∀ row ∈ gC.rows, row.geometry.valid = true) ∧
    ((stepUpload exLibsC exFilesB (stepUpload exLibsA exFilesA Session.start).1).1.gdf_store
        = some gC ∧
     file_info (load_shapefile exLibsC exFilesB) =
       "Shapefile loaded: " ++ toString gC.rows.length ++ " features" ∧
     geometry_info (load_shapefile exLibsC exFilesB) = geomInfoString gC) :=
  ⟨by decide, by decide, by decide,
   c1_outputs_replaced_when_new_load_fully_valid exLibsA exLibsC exFilesA
     exFilesB Session.start gA gC (by decide) (by decide) (by decide)⟩

/-- Counterexample to C1 as stated: after a prior successful load of `gA`,
a new upload is loaded (its table `gB` is returned, and the feature count
readout reports `gB`), yet the store feeding the map renderer still holds
the old table `gA`, whose row `exRowA` is not a row of `gB`: a row of the
previously loaded table still appears in the rendered map. -/
theorem c1_counterexample :
    (load_shapefile exLibsB exFilesB).table = some gB ∧
    file_info (load_shapefile exLibsB exFilesB) = "Shapefile loaded: 1 features" ∧
    (stepUpload exLibsB exFilesB
        (stepUpload exLibsA exFilesA Session.start).1).1.gdf_store = some gA ∧
    gA ≠ gB ∧ exRowA ∈ gA.rows ∧ exRowA ∉ gB.rows ∧
    map_output exLibsA
        (stepUpload exLibsB exFilesB
          (stepUpload exLibsA exFilesA Session.start).1).1 "x"
      = ((stepUpload exLibsB exFilesB
          (stepUpload exLibsA exFilesA Session.start).1).1,
         .htmlOut (exLibsA.repr_html
           ⟨(0, 0), 10, "OpenStreetMap",
            [⟨exGeomValid, yellow, "black", 1, 7 / 10, "x", .floatV 1⟩],
            "x", 1, 1, true, true⟩)) := by
  refine ⟨by decide, by decide, by decide, by decide, by decide, by decide, ?_⟩
  rfl

/-- C3: for every load whose table keeps `N ≥ 1` topologically invalid
rows after the zero-buffer repair, the load returns that table with all
rows retained, and its message states the count `N` and carries exactly
`N` validity explanations: one entry for each invalid row (keyed by the
row index), and nothing else. -/
theorem c3_invalid_report_one_explanation_per_invalid_row
    (E : Libs) (files : List FileInfo) (listing : List String)
    (fname : String) (gdf0 : GeoDataFrame)
    (hne : files ≠ [])
    (hassm : assembleDir E files = .ok listing)
    (hfind : listing.find? (fun f => strEndsWith f ".shp") = some fname)
    (hread : E.read_file (pjoin E.tmpdirname fname) = .ok gdf0)
    (hN : 1 ≤ ((repairTable E gdf0).rows.filter (fun r => !r.geometry.valid)).length) :
    (load_shapefile E files).table = some (repairTable E gdf0) ∧
    (repairTable E gdf0).rows.length = gdf0.rows.length ∧
    (load_shapefile E files).message =
      "Shapefile loaded with " ++
        toString ((repairTable E gdf0).rows.filter (fun r => !r.geometry.valid)).length ++
        " invalid geometries: " ++ renderDict (invalidEntries (repairTable E gdf0)) ∧
    (invalidEntries (repairTable E gdf0)).length =
      ((repairTable E gdf0).rows.filter (fun r => !r.geometry.valid)).length ∧
    (∀ p ∈ invalidEntries (repairTable E gdf0),
      ∃ row, (p.1, row) ∈ (repairTable E gdf0).rows.enum ∧
        row.geometry.valid = false ∧ p.2 = row.geometry.explanation) ∧
    (∀ (i : Nat) (row : GeoRow), (i, row) ∈ (repairTable E gdf0).rows.enum →
      row.geometry.valid = false →
      (i, row.geometry.explanation) ∈ invalidEntries (repairTable E gdf0)) := by
  have hlen : (invalid_geoms (repairTable E gdf0)).length =
      ((repairTable E gdf0).rows.filter (fun r => !r.geometry.valid)).length :=
    invalid_geoms_length (repairTable E gdf0)
  have hnonempty : (invalid_geoms (repairTable E gdf0)).isEmpty = false := by
    cases hv : (invalid_geoms (repairTable E gdf0)).isEmpty with
    | false => rfl
    | true =>
      exfalso
      have h0 := List.isEmpty_iff_length_eq_zero.mp hv
      rw [hlen] at h0
      omega
    -- the table with at least one invalid row cannot have an empty report
  have hbody : load_body E files =
      .ok ⟨some (repairTable E gdf0), mkInvalidMessage (repairTable E gdf0), none⟩ := by
    unfold load_body
    rw [hassm]
    dsimp only
    rw [hfind]
    dsimp only
    rw [hread]
    dsimp only
    rw [hnonempty]
    simp
  have hload : load_shapefile E files =
      ⟨some (repairTable E gdf0), mkInvalidMessage (repairTable E gdf0), none⟩ := by
    cases files with
    | nil => exact absurd rfl hne
    | cons f0 fs =>
      unfold load_shapefile
      simp only [List.isEmpty_cons, Bool.false_eq_true, if_false]
      rw [hbody]
  refine ⟨by rw [hload], ?_, ?_, ?_, ?_, ?_⟩
  · unfold repairTable
    exact List.length_map _ _
  · rw [hload]
    unfold mkInvalidMessage
    rw [hlen]
  · unfold invalidEntries
    rw [List.length_map]
    exact hlen
  · intro p hp
    unfold invalidEntries at hp
    rcases List.mem_map.mp hp with ⟨q, hq, hpq⟩
    unfold invalid_geoms at hq
    rcases List.mem_filter.mp hq with ⟨hqmem, hqval⟩
    refine ⟨q.2, ?_, ?_, ?_⟩
    · rw [← hpq]; exact hqmem
    · simpa using hqval
    · rw [← hpq]
  · intro i row hmem hval
    unfold invalidEntries invalid_geoms
    refine List.mem_map.mpr ⟨(i, row), ?_, rfl⟩
    refine List.mem_filter.mpr ⟨hmem, ?_⟩
    simp [hval]

/-- Witness for C3: loading `gB`, whose single row stays invalid after
repair, reports one invalid geometry with its explanation keyed by index 0. -/
theorem c3_witness :
    (exFilesB ≠ [] ∧
     assembleDir exLibsB exFilesB = .ok ["b.shp"] ∧
     ["b.shp"].find? (fun f => strEndsWith f ".shp") = some "b.shp" ∧
     exLibsB.read_file (pjoin exLibsB.tmpdirname "b.shp") = .ok gB ∧
     1 ≤ ((repairTable exLibsB gB).rows.filter (fun r => !r.geometry.valid)).length) ∧
    (load_shapefile exLibsB exFilesB).table = some (repairTable exLibsB gB) :=
  ⟨⟨by decide, by decide, by decide, by decide, by decide⟩,
   (c3_invalid_report_one_explanation_per_invalid_row exLibsB exFilesB
      ["b.shp"] "b.shp" gB (by decide) (by decide) (by decide) (by decide)
      (by decide)).1⟩

/-- C4: the attribute selector offers exactly the columns whose values are
integer or floating-point typed (in particular, a subset of the table's
numeric columns), and offers no options when no table exists.
`spec_numeric_columns` is the spec-side notion of the numeric column set;
`attribute_selector` is the code-side selector built from
`select_dtypes(include=["int64", "float64"])`. -/
theorem c4_selector_offers_exactly_numeric_columns (r : LoadResult) :
    selectorChoices (attribute_selector r) = r.table.elim [] spec_numeric_columns := by
  have hpred : ∀ g : GeoDataFrame, numeric_columns g = spec_numeric_columns g := by
    intro g
    unfold numeric_columns spec_numeric_columns
    have : ∀ c : String × Dtype,
        (c.2 == Dtype.int64 || c.2 == Dtype.float64) = isNumericDtype c.2 := by
      intro c
      rcases c with ⟨n, d⟩
      cases d <;> rfl
    congr 1
    exact List.filter_congr (fun c _ => this c)
  cases ht : r.table with
  | none => simp [attribute_selector, ht, selectorChoices, Option.elim]
  | some g => simp [attribute_selector, ht, selectorChoices, Option.elim, hpred g]

/-- C5: a load whose assembled scratch directory holds no file ending in
`.shp` returns an absent table with the specific message, and does so on
the ordinary (non-raising) path of the `try` body. -/
theorem c5_no_shp_reported_not_raised (E : Libs) (files : List FileInfo)
    (listing : List String)
    (hne : files ≠ [])
    (hassm : assembleDir E files = .ok listing)
    (hnoshp : ∀ f ∈ listing, strEndsWith f ".shp" = false) :
    load_body E files =
      .ok ⟨none, "No .shp file found in the uploaded files", none⟩ ∧
    load_shapefile E files =
      ⟨none, "No .shp file found in the uploaded files", none⟩ := by
  have hfind : listing.find? (fun f => strEndsWith f ".shp") = none := by
    rw [List.find?_eq_none]
    intro f hf
    simp [hnoshp f hf]
  have hbody : load_body E files =
      .ok ⟨none, "No .shp file found in the uploaded files", none⟩ := by
    unfold load_body
    rw [hassm]
    dsimp only
    rw [hfind]
  refine ⟨hbody, ?_⟩
  cases files with
  | nil => exact absurd rfl hne
  | cons f0 fs =>
    unfold load_shapefile
    simp only [List.isEmpty_cons, Bool.false_eq_true, if_false]
    rw [hbody]

/-- Witness for C5: a zip upload whose extraction yields only `.dbf` and
`.prj` members. -/
theorem c5_witness :
    (([⟨"a.zip", "/uploads/a.zip"⟩] : List FileInfo) ≠ [] ∧
     assembleDir exLibsNoShp [⟨"a.zip", "/uploads/a.zip"⟩] = .ok ["a.dbf", "a.prj"] ∧
     (∀ f ∈ ["a.dbf", "a.prj"], strEndsWith f ".shp" = false)) ∧
    load_shapefile exLibsNoShp [⟨"a.zip", "/uploads/a.zip"⟩] =
      ⟨none, "No .shp file found in the uploaded files", none⟩ :=
  ⟨⟨by decide, by decide, by decide⟩,
   (c5_no_shp_reported_not_raised exLibsNoShp [⟨"a.zip", "/uploads/a.zip"⟩]
      ["a.dbf", "a.prj"] (by decide) (by decide) (by decide)).2⟩

/-- Every successful copy pass places each given file in the scratch
directory under its original name. -/
lemma copyAll_ok_of_all_ok (E : Libs) (files : List FileInfo)
    (h : ∀ f ∈ files, E.copyFile f.datapath (pjoin E.tmpdirname f.name) = .ok ()) :
    copyAll E files = .ok (files.map (fun f => f.name)) := by
  induction files with
  | nil => rfl
  | cons f rest ih =>
    unfold copyAll
    rw [h f (List.mem_cons_self f rest)]
    rw [ih (fun f2 hf2 => h f2 (List.mem_cons_of_mem f hf2))]
    rfl

/-- C6: an upload set consisting of exactly one file whose name ends in
`.zip` has that archive's contents expanded into the scratch directory;
every other upload set (including several files one of which is an
archive) has each given file copied into the scratch directory under its
original name. -/
theorem c6_single_zip_extracted_otherwise_copied (E : Libs)
    (fz : FileInfo) (contents : List String) (files : List FileInfo)
    (hz : strEndsWith fz.name ".zip" = true)
    (hcontents : E.extractZip fz.datapath = .ok contents)
    (hnz : singleZip files = none)
    (hcopy : ∀ f ∈ files, E.copyFile f.datapath (pjoin E.tmpdirname f.name) = .ok ()) :
    assembleDir E [fz] = .ok contents ∧
    assembleDir E files = .ok (files.map (fun f => f.name)) := by
  constructor
  · have hsz : singleZip [fz] = some fz := by
      simp [singleZip, hz]
    unfold assembleDir
    rw [hsz]
    exact hcontents
  · unfold assembleDir
    rw [hnz]
    exact copyAll_ok_of_all_ok E files hcopy

/-- Witness for C6: a lone `.zip` upload is extracted; an upload of two
files, one of them an archive, is copied file by file under the original
names. -/
theorem c6_witness :
    (strEndsWith "z.zip" ".zip" = true ∧
     exLibsZip.extractZip "/uploads/z.zip" = .ok ["in.shp", "in.dbf"] ∧
     singleZip [⟨"a.shp", "/uploads/a.shp"⟩, ⟨"b.zip", "/uploads/b.zip"⟩] = none ∧
     (∀ f ∈ ([⟨"a.shp", "/uploads/a.shp"⟩, ⟨"b.zip", "/uploads/b.zip"⟩] : List FileInfo),
        exLibsZip.copyFile f.datapath (pjoin exLibsZip.tmpdirname f.name) = .ok ())) ∧
    (assembleDir exLibsZip [⟨"z.zip", "/uploads/z.zip"⟩] = .ok ["in.shp", "in.dbf"] ∧
     assembleDir exLibsZip [⟨"a.shp", "/uploads/a.shp"⟩, ⟨"b.zip", "/uploads/b.zip"⟩] =
       .ok ["a.shp", "b.zip"]) :=
  ⟨⟨by decide, by decide, by decide, by decide⟩,
   c6_single_zip_extracted_otherwise_copied exLibsZip ⟨"z.zip", "/uploads/z.zip"⟩
     ["in.shp", "in.dbf"] [⟨"a.shp", "/uploads/a.shp"⟩, ⟨"b.zip", "/uploads/b.zip"⟩]
     (by decide) (by decide) (by decide) (by decide)⟩

/-- C7: every exception raised inside the `try` body (extraction, copy or
parse) is caught: the load returns an absent table and a message built
from the failure description and the full diagnostic trace.  No raising
path escapes `load_shapefile`, whose return type is a plain result. -/
theorem c7_load_errors_caught_with_trace (E : Libs) (files : List FileInfo)
    (e : Exn)
    (hne : files ≠ [])
    (herr : load_body E files = .error e) :
    load_shapefile E files =
      ⟨none, "Error loading shapefile: " ++ e.desc ++ "\n" ++ E.format_exc e, none⟩ := by
  cases files with
  | nil => exact absurd rfl hne
  | cons f0 fs =>
    unfold load_shapefile
    simp only [List.isEmpty_cons, Bool.false_eq_true, if_false]
    rw [herr]
    rfl

/-- Witness for C7: a parse failure is converted into the error message
with its traceback. -/
theorem c7_witness :
    (exFilesA ≠ [] ∧
     load_body exLibsErr exFilesA = .error ⟨"Failed to parse file"⟩) ∧
    load_shapefile exLibsErr exFilesA =
      ⟨none,
       "Error loading shapefile: Failed to parse file\nTraceback (most recent call last): Failed to parse file",
       none⟩ :=
  ⟨⟨by decide, by decide⟩,
   c7_load_errors_caught_with_trace exLibsErr exFilesA ⟨"Failed to parse file"⟩
     (by decide) (by decide)⟩

/-- C8: every exception raised in the render sequence (for example a stale
or missing selected attribute) is caught and shown as an error paragraph
containing the failure description and the diagnostic trace, and the
session state — in particular the stored geometry table — is returned
unchanged, so no readout computed from it can change. -/
theorem c8_render_errors_caught_session_unchanged (E : Libs) (s : Session)
    (gdf : GeoDataFrame) (attr : String) (e : Exn)
    (hs : s.gdf_store = some gdf)
    (herr : render_body E gdf attr = .error e) :
    map_output E s attr =
      (s, .paragraph ("Error creating map: " ++ e.desc ++ "\n" ++ E.format_exc e)) := by
  unfold map_output
  rw [hs]
  dsimp only
  rw [herr]
  rfl

/-- Witness for C8: rendering with the stale attribute name `y`, absent
from the stored table, is caught as a `KeyError` and displayed with its
trace while the session keeps the table. -/
theorem c8_witness :
    ((⟨some gA⟩ : Session).gdf_store = some gA ∧
     render_body exLibsA gA "y" = .error ⟨"KeyError: y"⟩) ∧
    map_output exLibsA ⟨some gA⟩ "y" =
      (⟨some gA⟩,
       .paragraph
         "Error creating map: KeyError: y\nTraceback (most recent call last): KeyError: y") :=
  ⟨⟨by decide, by decide⟩,
   c8_render_errors_caught_session_unchanged exLibsA ⟨some gA⟩ gA "y"
     ⟨"KeyError: y"⟩ (by decide) (by decide)⟩

lemma foldl_min_le_init (xs : List ℚ) (a : ℚ) : xs.foldl min a ≤ a := by
  induction xs generalizing a with
  | nil => exact le_refl a
  | cons y ys ih => exact le_trans (ih (min a y)) (min_le_left a y)

lemma foldl_min_le_mem (xs : List ℚ) (a : ℚ) : ∀ x ∈ xs, xs.foldl min a ≤ x := by
  induction xs generalizing a with
  | nil => intro x hx; cases hx
  | cons y ys ih =>
    intro x hx
    rcases List.mem_cons.mp hx with h | h
    · subst h
      exact le_trans (foldl_min_le_init ys (min a x)) (min_le_right a x)
    · exact ih (min a y) x h

lemma init_le_foldl_max (xs : List ℚ) (a : ℚ) : a ≤ xs.foldl max a := by
  induction xs generalizing a with
  | nil => exact le_refl a
  | cons y ys ih => exact le_trans (le_max_left a y) (ih (max a y))

lemma mem_le_foldl_max (xs : List ℚ) (a : ℚ) : ∀ x ∈ xs, x ≤ xs.foldl max a := by
  induction xs generalizing a with
  | nil => intro x hx; cases hx
  | cons y ys ih =>
    intro x hx
    rcases List.mem_cons.mp hx with h | h
    · subst h
      exact le_trans (le_max_right a x) (init_le_foldl_max ys (max a x))
    · exact ih (max a y) x h

lemma listMin_le_mem (l : List ℚ) : ∀ x ∈ l, listMin l ≤ x := by
  cases l with
  | nil => intro x hx; cases hx
  | cons a xs =>
    intro x hx
    rcases List.mem_cons.mp hx with h | h
    · subst h; exact foldl_min_le_init xs x
    · exact foldl_min_le_mem xs a x h

lemma mem_le_listMax (l : List ℚ) : ∀ x ∈ l, x ≤ listMax l := by
  cases l with
  | nil => intro x hx; cases hx
  | cons a xs =>
    intro x hx
    rcases List.mem_cons.mp hx with h | h
    · subst h; exact init_le_foldl_max xs x
    · exact mem_le_foldl_max xs a x h

/-- When a series has equal minimum and maximum, every element equals the
minimum. -/
lemma mem_eq_listMin_of_minmax_eq (l : List ℚ) (h : listMin l = listMax l) :
    ∀ x ∈ l, x = listMin l := by
  intro x hx
  refine le_antisymm ?_ (listMin_le_mem l x hx)
  rw [h]
  exact mem_le_listMax l x hx

lemma exceptMapM_ok_mem {α β : Type} (f : α → Except Exn β) :
    ∀ (l : List α) (bs : List β), l.mapM f = .ok bs →
      ∀ a ∈ l, ∃ b, f a = .ok b ∧ b ∈ bs := by
  intro l
  induction l with
  | nil => intro bs _ a ha; cases ha
  | cons x t ih =>
    intro bs h a ha
    rw [List.mapM_cons] at h
    cases hfx : f x with
    | error e =>
      rw [hfx, except_bind_error] at h
      exact Except.noConfusion h
    | ok b =>
      rw [hfx, except_bind_ok] at h
      cases hmt : t.mapM f with
      | error e =>
        rw [hmt, except_bind_error] at h
        exact Except.noConfusion h
      | ok bs2 =>
        rw [hmt, except_bind_ok, except_pure] at h
        injection h with h
        subst h
        rcases List.mem_cons.mp ha with rfl | hat
        · exact ⟨b, hfx, List.mem_cons_self b bs2⟩
        · rcases ih bs2 hmt a hat with ⟨b2, hb2, hbs2⟩
          exact ⟨b2, hb2, List.mem_cons_of_mem b hbs2⟩

lemma exceptMapM_ok_of_forall {α β : Type} (f : α → Except Exn β) :
    ∀ l : List α, (∀ a ∈ l, ∃ b, f a = .ok b) → ∃ bs, l.mapM f = .ok bs := by
  intro l
  induction l with
  | nil => intro _; exact ⟨[], rfl⟩
  | cons x t ih =>
    intro h
    rcases h x (List.mem_cons_self x t) with ⟨b, hb⟩
    rcases ih (fun a ha => h a (List.mem_cons_of_mem x ha)) with ⟨bs, hbs⟩
    refine ⟨b :: bs, ?_⟩
    rw [List.mapM_cons, hb, except_bind_ok, hbs, except_bind_ok, except_pure]

/-- C9: when the selected numeric attribute has equal minimum and maximum
over all rows, the render sequence succeeds and returns map markup: the
degenerate linear color scale does not cause a failure, because every
value sits at the scale's lower stop and takes the first color without
interpolating over the zero-width segment. -/
theorem c9_degenerate_scale_still_renders (E : Libs) (s : Session)
    (gdf : GeoDataFrame) (attr : String) (vals : List ℚ)
    (hs : s.gdf_store = some gdf)
    (hcol : getColumn gdf attr = .ok vals)
    (hminmax : listMin vals = listMax vals) :
    ∃ html, map_output E s attr = (s, .htmlOut html) := by
  have hcol2 := hcol
  unfold getColumn at hcol2
  rcases hcont : (gdf.columns.map (fun c => c.1)).contains attr with _ | _
  · rw [hcont] at hcol2
    simp at hcol2
  · rw [hcont] at hcol2
    simp only [if_true] at hcol2
    -- every row's value for `attr` is ok and a member of `vals`
    have hrows := exceptMapM_ok_mem (rowValue attr) gdf.rows vals hcol2
    -- each feature styles successfully under the degenerate scale
    have hstyle : ∀ r ∈ gdf.rows,
        ∃ ft, styleFeature ⟨yellow, orange, red, listMin vals, listMax vals⟩
          attr r = .ok ft := by
      intro r hr
      rcases hrows r hr with ⟨q, hq, hqmem⟩
      unfold rowValue at hq
      cases hgv : getValue r attr with
      | error e => rw [hgv] at hq; exact Except.noConfusion hq
      | ok v =>
        rw [hgv] at hq
        have hqmin : q = listMin vals := mem_eq_listMin_of_minmax_eq vals hminmax q hqmem
        have hcolor : ColorScale.colorAt ⟨yellow, orange, red, listMin vals, listMax vals⟩ q
            = .ok yellow := by
          unfold ColorScale.colorAt
          rw [if_pos (le_of_eq hqmin)]
        dsimp only at hq
        refine ⟨⟨r.geometry, yellow, "black", 1, 7 / 10, attr, v⟩, ?_⟩
        unfold styleFeature
        rw [hgv]
        dsimp only
        rw [hq]
        dsimp only
        rw [hcolor]
    rcases exceptMapM_ok_of_forall _ gdf.rows hstyle with ⟨features, hfeat⟩
    have hrender : render_body E gdf attr =
        .ok (E.repr_html
          ⟨(centerLat gdf, centerLon gdf), 10, "OpenStreetMap", features, attr,
           listMin vals, listMax vals, true, true⟩) := by
      unfold render_body
      rw [hcol]
      dsimp only
      rw [hfeat]
    have hmap : map_output E s attr =
        (s, .htmlOut (E.repr_html
          ⟨(centerLat gdf, centerLon gdf), 10, "OpenStreetMap", features, attr,
           listMin vals, listMax vals, true, true⟩)) := by
      unfold map_output
      rw [hs]
      dsimp only
      rw [hrender]
    exact ⟨_, hmap⟩

/-- Witness for C9: the stored table `gA` has a single row with `x = 1`,
so the attribute's minimum equals its maximum, and the map renders. -/
theorem c9_witness :
    ((⟨some gA⟩ : Session).gdf_store = some gA ∧
     getColumn gA "x" = .ok [1] ∧
     listMin [1] = listMax [1]) ∧
    (∃ html, map_output exLibsA ⟨some gA⟩ "x" = (⟨some gA⟩, .htmlOut html)) :=
  ⟨⟨by decide, by decide, by decide⟩,
   c9_degenerate_scale_still_renders exLibsA ⟨some gA⟩ gA "x" [1]
     (by decide) (by decide) (by decide)⟩

end ShpViewer
